import Mathlib

/-!
Verification of the pH calibration and conversion core of `hydroctrl`
(`src/ph.py`), shallowly embedded over exact rational arithmetic.

The theory functions (`PHTheory`) are pure and total over `ℚ`; the
calibration constructor models Python's exception control flow with
`Except`, including the `ZeroDivisionError` that Python raises when a
float division has a zero denominator.
-/

namespace Hydroctrl

namespace PHTheory

/-- Slope of the ideal pH electrode, in V/pH (`PHTheory.ideal_slope`).
The source hard-codes `ln_10 = 2.3026`, a 4-decimal approximation. -/
def ideal_slope (temp : ℚ) : ℚ :=
  let gas_const : ℚ := 8.3144
  let faraday_const : ℚ := 96485
  let abs_zero_temp : ℚ := -273.15
  let ln_10 : ℚ := 2.3026
  gas_const * (temp - abs_zero_temp) * ln_10 / faraday_const

/-- Relative slope of the pH electrode (`PHTheory.compute_slope`).
Equals 1 for the ideal electrode. -/
def compute_slope (temp ph1 v1 ph2 v2 : ℚ) : ℚ :=
  (v1 - v2) / (ph2 - ph1) / ideal_slope temp

/-- Offset voltage (`PHTheory.compute_offset`). -/
def compute_offset (temp slope ph v : ℚ) : ℚ :=
  v + slope * ideal_slope temp * (ph - 7)

/-- Per-sample pH conversion (`PHTheory.compute_ph`). -/
def compute_ph (temp offset slope v : ℚ) : ℚ :=
  7 + (offset - v) / (slope * ideal_slope temp)

end PHTheory

/-- One reference-buffer measurement (an entry of
`settings.PH_CALIBRATION['points']`). -/
structure CalibrationPoint where
  ph : ℚ
  voltage : ℚ
deriving DecidableEq, Repr

/-- The configuration the constructor reads from `settings`:
`PH_CALIBRATION['points']`, `PH_CALIBRATION['temperature']`, and
`PH_ADC_REF_V`. -/
structure CalibrationConfig where
  points : List CalibrationPoint
  temperature : ℚ
  adcRefV : ℚ
deriving DecidableEq, Repr

/-- The distinct exceptions `PHCalibration.__init__` can raise:
the failed `assert` on the point count (the spec's `ConfigurationError`),
the two range-check `Exception`s (the spec's `CalibrationOutOfRangeError`,
distinguished by message), and Python's `ZeroDivisionError` from the
divisions inside `compute_slope`. -/
inductive PHError where
  | configurationError
  | slopeOutOfRange
  | offsetOutOfRange
  | zeroDivisionError
deriving DecidableEq, Repr

/-- A successfully constructed calibration: the `self.slope` and
`self.offset` fields of `PHCalibration`. -/
structure PHCalibration where
  slope : ℚ
  offset : ℚ
deriving DecidableEq, Repr

/-- The constructor `PHCalibration.__init__`: asserts exactly two points, computes the
slope (Python raises `ZeroDivisionError` when `ph2 - ph1` is zero, or
when `ideal_slope temp` is zero, before any range check), checks
`|slope - 1| ≤ 0.2`, computes the offset from point 1, checks
`|offset - PH_ADC_REF_V/2| ≤ PH_ADC_REF_V * 0.1`. -/
def PHCalibration.init (cfg : CalibrationConfig) : Except PHError PHCalibration :=
  match cfg.points with
  | [point1, point2] =>
    let temp := cfg.temperature
    if point2.ph - point1.ph = 0 ∨ PHTheory.ideal_slope temp = 0 then
      .error .zeroDivisionError
    else
      let slope := PHTheory.compute_slope temp point1.ph point1.voltage point2.ph point2.voltage
      if |slope - 1| > 0.2 then
        .error .slopeOutOfRange
      else
        let offset := PHTheory.compute_offset temp slope point1.ph point1.voltage
        if |offset - cfg.adcRefV / 2| > cfg.adcRefV * 0.1 then
          .error .offsetOutOfRange
        else
          .ok ⟨slope, offset⟩
  | _ => .error .configurationError

/-- The method `PHCalibration.compute_ph`: delegates to the theory function with the
held slope and offset. -/
def PHCalibration.compute_ph (self : PHCalibration) (temp v : ℚ) : ℚ :=
  PHTheory.compute_ph temp self.offset self.slope v

/-- One hardware transport failure class (the I2C read raising). -/
inductive TransportError where
  | transportError
deriving DecidableEq, Repr

/-- The voltage source (`ADCInterface.get_voltage`), modelled as the
sequence of outcomes of successive reads: reading `n` is what the n-th
hardware read returns (a voltage) or raises (a transport error). -/
structure VoltageSource where
  readings : ℕ → Except TransportError ℚ

/-- The `PHInterface` state: the calibration held since construction and a
counter of hardware reads performed so far. -/
structure PHInterface where
  calibration : PHCalibration
  reads : ℕ
deriving DecidableEq, Repr

/-- The method `PHInterface.get_ph`: performs one fresh voltage read and converts it;
a raised transport error propagates unchanged (the read was still
performed). Returns the result together with the updated state. -/
def PHInterface.get_ph (self : PHInterface) (src : VoltageSource) (temp : ℚ) :
    Except TransportError ℚ × PHInterface :=
  match src.readings self.reads with
  | .ok v => (.ok (self.calibration.compute_ph temp v), { self with reads := self.reads + 1 })
  | .error e => (.error e, { self with reads := self.reads + 1 })

/-- Closed form of `ideal_slope`, shared by the proofs below. -/
theorem ideal_slope_eq (t : ℚ) :
    PHTheory.ideal_slope t = 8.3144 * (t + 273.15) * 2.3026 / 96485 := by
  unfold PHTheory.ideal_slope
  norm_num

/-- The value `ideal_slope t` is positive for physically valid temperatures. -/
theorem ideal_slope_pos {t : ℚ} (h : t > -273.15) : 0 < PHTheory.ideal_slope t := by
  rw [ideal_slope_eq]
  have h1 : (0:ℚ) < t + 273.15 := by linarith
  positivity

/-- The value `ideal_slope t` vanishes only at absolute zero. -/
theorem ideal_slope_ne_zero {t : ℚ} (ht : t ≠ -273.15) : PHTheory.ideal_slope t ≠ 0 := by
  rw [ideal_slope_eq]
  have h1 : t + 273.15 ≠ 0 := fun hc => ht (by linarith)
  exact div_ne_zero (mul_ne_zero (mul_ne_zero (by norm_num) h1) (by norm_num)) (by norm_num)

/-- C1: round-trip of offset derivation and pH conversion: for every slope
`s ≠ 0`, temperature `t > -273.15`, pH `p` and voltage `v`, converting back
with the offset computed forward recovers `p` exactly. -/
theorem claim_C1_round_trip (s t p v : ℚ) (hs : s ≠ 0) (ht : t > -273.15) :
    PHTheory.compute_ph t (PHTheory.compute_offset t s p v) s v = p := by
  have hi : PHTheory.ideal_slope t ≠ 0 := ne_of_gt (ideal_slope_pos ht)
  unfold PHTheory.compute_ph PHTheory.compute_offset
  field_simp

theorem claim_C1_round_trip_witness :
    (1:ℚ) ≠ 0 ∧ (25:ℚ) > -273.15 ∧
      PHTheory.compute_ph 25 (PHTheory.compute_offset 25 1 4 0.2) 1 0.2 = 4 :=
  ⟨by norm_num, by norm_num, claim_C1_round_trip 1 25 4 0.2 (by norm_num) (by norm_num)⟩

/-- C2: `ideal_slope` is strictly positive and strictly increasing on
physically valid temperatures `t > -273.15`. -/
theorem claim_C2_ideal_slope_pos_strictMono :
    (∀ t : ℚ, t > -273.15 → 0 < PHTheory.ideal_slope t) ∧
      (∀ t1 t2 : ℚ, t1 > -273.15 → t2 > -273.15 → t1 < t2 →
        PHTheory.ideal_slope t1 < PHTheory.ideal_slope t2) := by
  refine ⟨fun t ht => ideal_slope_pos ht, fun t1 t2 h1 h2 h12 => ?_⟩
  rw [ideal_slope_eq, ideal_slope_eq]
  have : (0:ℚ) < 8.3144 * 2.3026 / 96485 := by norm_num
  nlinarith

theorem claim_C2_ideal_slope_pos_strictMono_witness :
    0 < PHTheory.ideal_slope 25 ∧ PHTheory.ideal_slope 20 < PHTheory.ideal_slope 25 :=
  ⟨claim_C2_ideal_slope_pos_strictMono.1 25 (by norm_num),
    claim_C2_ideal_slope_pos_strictMono.2 20 25 (by norm_num) (by norm_num) (by norm_num)⟩

/-- C3 counterexample: at `t = 25`, the code's `ideal_slope` (which uses the
constant `2.3026`) differs from `R * (t - absolute_zero) * ln 10 / F` with
the exact natural logarithm, because `ln 10 < 2.3026`. -/
theorem claim_C3_counterexample :
    ((PHTheory.ideal_slope 25 : ℚ) : ℝ) ≠
      8.3144 * ((25:ℝ) - (-273.15)) * Real.log 10 / 96485 := by
  have hlog : Real.log 10 < 2.3026 := by
    rw [Real.log_lt_iff_lt_exp (by norm_num)]
    refine lt_of_lt_of_le ?_ (Real.sum_le_exp_of_nonneg (by norm_num) 12)
    simp only [Finset.sum_range_succ, Finset.sum_range_zero, Nat.factorial]
    norm_num
  have hval : ((PHTheory.ideal_slope 25 : ℚ) : ℝ) = 8.3144 * (25 + 273.15) * 2.3026 / 96485 := by
    rw [ideal_slope_eq]
    push_cast
    norm_num
  rw [hval]
  intro heq
  have h2 : (2.3026:ℝ) = Real.log 10 := by
    field_simp at heq
    nlinarith [heq]
  linarith

/-- C3 amended: for every temperature `t`, `ideal_slope t` equals
`R * (t - absolute_zero_in_celsius) * 2.3026 / F` with `R = 8.3144`,
`F = 96485`, `absolute_zero_in_celsius = -273.15`, where `2.3026` is the
code's 4-decimal approximation of the natural logarithm of 10. -/
theorem claim_C3_ideal_slope_formula (t : ℚ) :
    PHTheory.ideal_slope t = 8.3144 * (t - (-273.15)) * 2.3026 / 96485 := by
  rw [ideal_slope_eq]
  ring

/-- C4: `compute_slope` is invariant under swapping the two calibration
points: the sign change cancels between numerator and denominator. -/
theorem claim_C4_compute_slope_swap (t ph1 v1 ph2 v2 : ℚ)
    (ht : t > -273.15) (hph : ph1 ≠ ph2) :
    PHTheory.compute_slope t ph1 v1 ph2 v2 = PHTheory.compute_slope t ph2 v2 ph1 v1 := by
  unfold PHTheory.compute_slope
  rw [show v2 - v1 = -(v1 - v2) by ring, show ph1 - ph2 = -(ph2 - ph1) by ring,
    neg_div_neg_eq]

theorem claim_C4_compute_slope_swap_witness :
    (25:ℚ) > -273.15 ∧ (7:ℚ) ≠ 4 ∧
      PHTheory.compute_slope 25 7 0 4 0.177 = PHTheory.compute_slope 25 4 0.177 7 0 :=
  ⟨by norm_num, by norm_num,
    claim_C4_compute_slope_swap 25 7 0 4 0.177 (by norm_num) (by norm_num)⟩

/-- C10: for positive slope and valid temperature, `compute_ph` is strictly
decreasing in the voltage, and returns exactly 7 at `v = offset`. -/
theorem claim_C10_compute_ph_decreasing_neutral (t o s : ℚ)
    (ht : t > -273.15) (hs : 0 < s) :
    (∀ v1 v2 : ℚ, v1 < v2 →
      PHTheory.compute_ph t o s v2 < PHTheory.compute_ph t o s v1) ∧
      PHTheory.compute_ph t o s o = 7 := by
  have hd : 0 < s * PHTheory.ideal_slope t := mul_pos hs (ideal_slope_pos ht)
  constructor
  · intro v1 v2 h12
    unfold PHTheory.compute_ph
    have h := (div_lt_div_iff_of_pos_right hd).mpr (show o - v2 < o - v1 by linarith)
    linarith
  · unfold PHTheory.compute_ph
    rw [sub_self, zero_div, add_zero]

theorem claim_C10_compute_ph_decreasing_neutral_witness :
    PHTheory.compute_ph 25 1.65 1 1.7 < PHTheory.compute_ph 25 1.65 1 1.6 ∧
      PHTheory.compute_ph 25 1.65 1 1.65 = 7 :=
  ⟨(claim_C10_compute_ph_decreasing_neutral 25 1.65 1 (by norm_num) (by norm_num)).1
      1.6 1.7 (by norm_num),
    (claim_C10_compute_ph_decreasing_neutral 25 1.65 1 (by norm_num) (by norm_num)).2⟩

/-- C5 counterexample: at temperature exactly `-273.15` the constructor does
not fail through the slope or offset range checks (nor succeed): the division
by `ideal_slope temp = 0` inside `compute_slope` raises `ZeroDivisionError`,
so construction can fail even though neither range-check condition is the
cause. -/
theorem claim_C5_counterexample :
    PHCalibration.init ⟨[⟨7, 0⟩, ⟨4, 0.177⟩], -273.15, 3.3⟩ =
        .error .zeroDivisionError ∧
      (⟨7, (0:ℚ)⟩ : CalibrationPoint).ph ≠ (⟨4, (0.177:ℚ)⟩ : CalibrationPoint).ph := by
  constructor
  · simp only [PHCalibration.init]
    rw [if_pos]
    right
    rw [ideal_slope_eq]
    norm_num
  · show (7:ℚ) ≠ 4
    norm_num

/-- C5 (amended with `temperature ≠ -273.15`): for a two-point config with
distinct pH values and a temperature other than absolute zero, construction
fails with the slope message exactly when `|slope - 1| > 0.2`; with the slope
in range, it fails with the offset message exactly when
`|offset - adcRefV/2| > 0.1 * adcRefV`; otherwise it succeeds holding exactly
the computed slope and offset. -/
theorem claim_C5_validation (cfg : CalibrationConfig) (p1 p2 : CalibrationPoint)
    (hpts : cfg.points = [p1, p2]) (hph : p1.ph ≠ p2.ph)
    (ht : cfg.temperature ≠ -273.15) :
    (0.2 < |PHTheory.compute_slope cfg.temperature p1.ph p1.voltage p2.ph p2.voltage - 1| →
        PHCalibration.init cfg = .error .slopeOutOfRange) ∧
    (|PHTheory.compute_slope cfg.temperature p1.ph p1.voltage p2.ph p2.voltage - 1| ≤ 0.2 →
      cfg.adcRefV * 0.1 <
          |PHTheory.compute_offset cfg.temperature
              (PHTheory.compute_slope cfg.temperature p1.ph p1.voltage p2.ph p2.voltage)
              p1.ph p1.voltage - cfg.adcRefV / 2| →
        PHCalibration.init cfg = .error .offsetOutOfRange) ∧
    (|PHTheory.compute_slope cfg.temperature p1.ph p1.voltage p2.ph p2.voltage - 1| ≤ 0.2 →
      |PHTheory.compute_offset cfg.temperature
          (PHTheory.compute_slope cfg.temperature p1.ph p1.voltage p2.ph p2.voltage)
          p1.ph p1.voltage - cfg.adcRefV / 2| ≤ cfg.adcRefV * 0.1 →
        PHCalibration.init cfg = .ok
          ⟨PHTheory.compute_slope cfg.temperature p1.ph p1.voltage p2.ph p2.voltage,
            PHTheory.compute_offset cfg.temperature
              (PHTheory.compute_slope cfg.temperature p1.ph p1.voltage p2.ph p2.voltage)
              p1.ph p1.voltage⟩) := by
  have hz : ¬(p2.ph - p1.ph = 0 ∨ PHTheory.ideal_slope cfg.temperature = 0) := by
    push_neg
    exact ⟨sub_ne_zero_of_ne (Ne.symm hph), ideal_slope_ne_zero ht⟩
  refine ⟨fun hs => ?_, fun hs ho => ?_, fun hs ho => ?_⟩ <;>
    simp only [PHCalibration.init, hpts]
  · rw [if_neg hz, if_pos hs]
  · rw [if_neg hz, if_neg (not_lt.mpr hs), if_pos ho]
  · rw [if_neg hz, if_neg (not_lt.mpr hs), if_neg (not_lt.mpr ho)]

theorem claim_C5_validation_witness :
    PHCalibration.init ⟨[⟨7, 1.65⟩, ⟨4, 1.827⟩], 25, 3.3⟩ =
      .ok ⟨PHTheory.compute_slope 25 7 1.65 4 1.827,
        PHTheory.compute_offset 25 (PHTheory.compute_slope 25 7 1.65 4 1.827) 7 1.65⟩ := by
  have h := claim_C5_validation ⟨[⟨7, 1.65⟩, ⟨4, 1.827⟩], 25, 3.3⟩ ⟨7, 1.65⟩ ⟨4, 1.827⟩
    rfl (by norm_num) (by norm_num)
  exact h.2.2
    (by rw [abs_le]; norm_num [PHTheory.compute_slope, ideal_slope_eq])
    (by rw [abs_le]; norm_num [PHTheory.compute_offset, PHTheory.compute_slope, ideal_slope_eq])

/-- C6: a configuration whose point list does not have exactly two entries
fails with the `ConfigurationError` (the failed point-count assertion),
whatever the points, temperature and reference voltage are — so before any
slope or offset computation is performed. -/
theorem claim_C6_point_count (cfg : CalibrationConfig) (h : cfg.points.length ≠ 2) :
    PHCalibration.init cfg = .error .configurationError := by
  obtain ⟨pts, temp, ref⟩ := cfg
  rcases pts with _ | ⟨a, _ | ⟨b, _ | ⟨c, rest⟩⟩⟩
  · rfl
  · rfl
  · exact absurd rfl h
  · rfl

theorem claim_C6_point_count_witness :
    ([⟨7, (0:ℚ)⟩] : List CalibrationPoint).length ≠ 2 ∧
      PHCalibration.init ⟨[⟨7, 0⟩], 25, 3.3⟩ = .error .configurationError :=
  ⟨by norm_num, claim_C6_point_count ⟨[⟨7, 0⟩], 25, 3.3⟩ (by norm_num)⟩

/-- C7: the code has no check for `ph1 == ph2`. With two points of equal pH
(here pH 7 at voltages 0 and 0.1, temperature 25), the division
`(v1 - v2) / (ph2 - ph1)` inside `compute_slope` has a zero denominator, so
Python raises `ZeroDivisionError` — not the `ConfigurationError` the claim
requires. -/
theorem claim_C7_equal_ph_behavior :
    PHCalibration.init ⟨[⟨7, 0⟩, ⟨7, 0.1⟩], 25, 3.3⟩ = .error .zeroDivisionError := by
  simp only [PHCalibration.init]
  rw [if_pos]
  left
  norm_num

/-- C8 counterexample: scenario 1 (temperature 25, point1 pH 7.0 at 0.000 V,
point2 pH 4.0 at 0.177 V, reference 3.3 V) does not succeed: the offset
computed from point1 is 0.000 V, which is outside the allowed band around
1.65 V, so construction fails with the offset range error. -/
theorem claim_C8_counterexample :
    PHCalibration.init ⟨[⟨7, 0⟩, ⟨4, 0.177⟩], 25, 3.3⟩ = .error .offsetOutOfRange := by
  simp only [PHCalibration.init]
  rw [if_neg, if_neg, if_pos]
  · rw [show PHTheory.compute_offset 25 (PHTheory.compute_slope 25 7 0 4 0.177) 7 0 = 0 by
      unfold PHTheory.compute_offset; ring]
    norm_num
    rw [abs_of_pos] <;> norm_num
  · rw [not_lt, abs_le]
    constructor <;> norm_num [PHTheory.compute_slope, ideal_slope_eq]
  · rw [ideal_slope_eq]
    push_neg
    norm_num

/-- C8 amended: with the scenario-1 inputs, the computed slope is within
0.05 of 1.0, but the offset computed from point1 (pH exactly 7 at 0.000 V)
is 0.000 V, outside the ±0.33 band around adc_reference_voltage/2 = 1.65 V,
so construction fails with the offset-out-of-range error instead of
succeeding. -/
theorem claim_C8_scenario1 :
    |PHTheory.compute_slope 25 7 0 4 0.177 - 1| ≤ 0.05 ∧
      PHTheory.compute_offset 25 (PHTheory.compute_slope 25 7 0 4 0.177) 7 0 = 0 ∧
      PHCalibration.init ⟨[⟨7, 0⟩, ⟨4, 0.177⟩], 25, 3.3⟩ = .error .offsetOutOfRange := by
  refine ⟨?_, ?_, ?_⟩
  · rw [abs_le]
    constructor <;> norm_num [PHTheory.compute_slope, ideal_slope_eq]
  · unfold PHTheory.compute_offset
    ring
  · simp only [PHCalibration.init]
    rw [if_neg, if_neg, if_pos]
    · rw [show PHTheory.compute_offset 25 (PHTheory.compute_slope 25 7 0 4 0.177) 7 0 = 0 by
        unfold PHTheory.compute_offset; ring]
      norm_num
      rw [abs_of_pos] <;> norm_num
    · rw [not_lt, abs_le]
      constructor <;> norm_num [PHTheory.compute_slope, ideal_slope_eq]
    · rw [ideal_slope_eq]
      push_neg
      norm_num

/-- C9: `get_ph` performs exactly one fresh voltage read (the read counter
advances by one, whether the read succeeds or raises), leaves the held
calibration unchanged, returns `Calibration.compute_ph temperature v` on a
successful read of `v`, and propagates a transport error unchanged. -/
theorem claim_C9_get_ph (st : PHInterface) (src : VoltageSource) (temp : ℚ) :
    ((st.get_ph src temp).2.reads = st.reads + 1) ∧
      ((st.get_ph src temp).2.calibration = st.calibration) ∧
      (∀ v, src.readings st.reads = .ok v →
        (st.get_ph src temp).1 = .ok (st.calibration.compute_ph temp v)) ∧
      (∀ e, src.readings st.reads = .error e → (st.get_ph src temp).1 = .error e) := by
  refine ⟨?_, ?_, ?_, ?_⟩
  · cases h : src.readings st.reads <;> simp [PHInterface.get_ph, h]
  · cases h : src.readings st.reads <;> simp [PHInterface.get_ph, h]
  · intro v hv
    simp [PHInterface.get_ph, hv]
  · intro e he
    simp [PHInterface.get_ph, he]

theorem claim_C9_get_ph_witness :
    (PHInterface.get_ph ⟨⟨1, 1.65⟩, 0⟩ ⟨fun _ => .ok 1.65⟩ 25).1 = .ok 7 ∧
      (PHInterface.get_ph ⟨⟨1, 1.65⟩, 0⟩ ⟨fun _ => .ok 1.65⟩ 25).2.reads = 1 ∧
      (PHInterface.get_ph ⟨⟨1, 1.65⟩, 0⟩ ⟨fun _ => .ok 1.65⟩ 25).2.calibration = ⟨1, 1.65⟩ ∧
      (PHInterface.get_ph ⟨⟨1, 1.65⟩, 5⟩ ⟨fun _ => .error .transportError⟩ 25).1 =
        .error .transportError := by
  have h := claim_C9_get_ph ⟨⟨1, 1.65⟩, 0⟩ ⟨fun _ => .ok 1.65⟩ 25
  have herr := claim_C9_get_ph ⟨⟨1, 1.65⟩, 5⟩ ⟨fun _ => .error .transportError⟩ 25
  refine ⟨?_, h.1, h.2.1, herr.2.2.2 .transportError rfl⟩
  rw [h.2.2.1 1.65 rfl]
  norm_num [PHCalibration.compute_ph, PHTheory.compute_ph]

end Hydroctrl
